import Mathlib

/-!
Verification development for the pretty-mod module explorer.

The development shallowly embeds the Python sources (`src/pretty_mod`,
`python/pretty_mod`) and, where the compiled extension module
`_pretty_mod` is not part of the source tree, models the missing
components from the specification document.  Machine effects (importing
a module, attribute lookup, network access) are represented by explicit
environments so that every definition is an executable Lean function.

Python string primitives (`in`, `split`, `join`) are re-implemented by
structural recursion on the character list of a `String`, so that every
concrete computation reduces in the kernel.
-/

set_option autoImplicit false

namespace PrettyMod

universe u

/-! ## String helpers (Python string primitives) -/

/-- `c ∈ l` for a character list (Python `c in s`). -/
def containsCharL (c : Char) : List Char → Bool
  | [] => false
  | a :: as => a == c || containsCharL c as

/-- Python `c in s` for a single-character needle. -/
def strContains (s : String) (c : Char) : Bool :=
  containsCharL c s.data

/-- Split a character list at every occurrence of `c`
(Python `s.split(c)`, which yields `[""]` on the empty string). -/
def splitCharL (c : Char) : List Char → List (List Char)
  | [] => [[]]
  | a :: as =>
    let r := splitCharL c as
    if a == c then [] :: r
    else
      match r with
      | [] => [[a]]
      | g :: gs => (a :: g) :: gs

/-- Python `s.split(".")` as a list of strings. -/
def splitDot (s : String) : List String :=
  (splitCharL '.' s.data).map (fun g => ⟨g⟩)

/-- Split at the first occurrence of `c` (Python `s.split(c, 1)`); the
source only calls this after checking that `c` occurs. -/
def split1Char (c : Char) : List Char → List Char × List Char
  | [] => ([], [])
  | a :: as =>
    if a == c then ([], as)
    else
      let r := split1Char c as
      (a :: r.1, r.2)

/-- `split1Char` on strings. -/
def split1Str (c : Char) (s : String) : String × String :=
  let r := split1Char c s.data
  (⟨r.1⟩, ⟨r.2⟩)

/-- Python `sep.join(l)`. -/
def joinSep (sep : String) : List String → String
  | [] => ""
  | [x] => x
  | x :: xs => x ++ sep ++ joinSep sep xs

/-- Count the occurrences of a character (used for colon counting). -/
def countCharL (c : Char) : List Char → Nat
  | [] => 0
  | a :: as => (if a == c then 1 else 0) + countCharL c as

/-! ## `import_object` (src/pretty_mod/_internal/utils.py)

The Python runtime is abstracted as an environment: `importModule`
returns `none` where `importlib.import_module` would raise
`ImportError`, and `getattr` returns `none` where attribute lookup
would raise `AttributeError`.  Those are exactly the two exceptions the
source catches in its retry loop. -/

/-- Abstract Python runtime seen by `import_object`. -/
structure PyEnv (α : Type u) where
  importModule : String → Option α
  getattr : α → String → Option α

/-- One candidate of the dot-syntax loop: import the first `i` dotted
segments as a module (`".".join(parts[:i])`) and resolve the remaining
segments (`parts[i:]`) by chained attribute access.  `none` models the
`ImportError`/`AttributeError` that makes the source `continue`. -/
def tryAt {α : Type u} (env : PyEnv α) (parts : List String) (i : Nat) : Option α :=
  (env.importModule (joinSep "." (parts.take i))).bind
    (fun module => (parts.drop i).foldlM env.getattr module)

/-- The `for i in range(len(parts), 0, -1)` loop of `import_object`:
try prefixes of length `n, n-1, ..., 1`; the fall-through `raise
ImportError` is `none`. -/
def dotLoop {α : Type u} (env : PyEnv α) (parts : List String) : Nat → Option α
  | 0 => none
  | i + 1 =>
    match tryAt env parts (i + 1) with
    | some v => some v
    | none => dotLoop env parts i

theorem dotLoop_succ_of_some {α : Type u} {env : PyEnv α} {parts : List String}
    {i : Nat} {w : α} (h : tryAt env parts (i + 1) = some w) :
    dotLoop env parts (i + 1) = some w := by
  simp [dotLoop, h]

theorem dotLoop_succ_of_none {α : Type u} {env : PyEnv α} {parts : List String}
    {i : Nat} (h : tryAt env parts (i + 1) = none) :
    dotLoop env parts (i + 1) = dotLoop env parts i := by
  simp [dotLoop, h]

/-- Shallow embedding of `import_object` from
`src/pretty_mod/_internal/utils.py`.  With a colon the string is split
once (`split(":", 1)`), the part before the colon is imported and the
part after it is looked up as a single attribute; without a colon the
dotted-prefix loop runs. -/
def import_object {α : Type u} (env : PyEnv α) (import_path : String) : Option α :=
  if strContains import_path ':' then
    let p := split1Str ':' import_path
    (env.importModule p.1).bind (fun module => env.getattr module p.2)
  else
    let parts := splitDot import_path
    dotLoop env parts parts.length

/-- The dot-syntax loop exactly as the specification words it: the loop
stops at the first prefix that *imports* successfully and then commits
to resolving the remaining dotted suffix on that module, instead of
also falling through to shorter prefixes when the attribute chain
fails.  Written from the spec's sentence for comparison with
`dotLoop`. -/
def dotLoopClaimed {α : Type u} (env : PyEnv α) (parts : List String) : Nat → Option α
  | 0 => none
  | i + 1 =>
    match env.importModule (joinSep "." (parts.take (i + 1))) with
    | some module => (parts.drop (i + 1)).foldlM env.getattr module
    | none => dotLoopClaimed env parts i

/-- `import_object` as described by the specification sentence (same
colon branch, but the committing dot loop `dotLoopClaimed`). -/
def import_object_claimed {α : Type u} (env : PyEnv α) (import_path : String) : Option α :=
  if strContains import_path ':' then
    let p := split1Str ':' import_path
    (env.importModule p.1).bind (fun module => env.getattr module p.2)
  else
    let parts := splitDot import_path
    dotLoopClaimed env parts parts.length

/-- A concrete runtime in which module `a.b` imports but lacks
attribute `c`, while the object reached as `a.b.c` through attribute
access on module `a` exists: objects are numbered `1` = module `a.b`,
`2` = module `a`, `3` = the object `a.b`, `4` = the value `a.b.c`. -/
def envC : PyEnv Nat where
  importModule := fun path =>
    match path with
    | "a" => some 2
    | "a.b" => some 1
    | _ => none
  getattr := fun obj attrName =>
    match obj, attrName with
    | 2, "b" => some 3
    | 3, "c" => some 4
    | _, _ => none

/-! ### Characterisation of the dotted-prefix loop -/

theorem dotLoop_eq_some_iff {α : Type u} (env : PyEnv α) (parts : List String) :
    ∀ (n : Nat) (v : α), dotLoop env parts n = some v ↔
      ∃ i, 1 ≤ i ∧ i ≤ n ∧ tryAt env parts i = some v ∧
        ∀ j, i < j → j ≤ n → tryAt env parts j = none := by
  intro n
  induction n with
  | zero =>
    intro v
    simp only [dotLoop]
    constructor
    · intro h; cases h
    · rintro ⟨i, h1, h2, -⟩; omega
  | succ n ih =>
    intro v
    cases htry : tryAt env parts (n + 1) with
    | some w =>
      rw [dotLoop_succ_of_some htry]
      constructor
      · intro h
        refine ⟨n + 1, by omega, le_refl _, by rw [htry]; exact h, ?_⟩
        intro j hj1 hj2; omega
      · rintro ⟨i, hi1, hi2, hsome, hnone⟩
        rcases Nat.lt_or_ge i (n + 1) with hlt | hge
        · exact absurd htry (by rw [hnone (n + 1) hlt (le_refl _)]; simp)
        · have hieq : i = n + 1 := by omega
          subst hieq
          rw [htry] at hsome
          exact hsome
    | none =>
      rw [dotLoop_succ_of_none htry, ih v]
      constructor
      · rintro ⟨i, hi1, hi2, hsome, hnone⟩
        refine ⟨i, hi1, by omega, hsome, ?_⟩
        intro j hj1 hj2
        rcases Nat.lt_or_ge j (n + 1) with hlt | hge
        · exact hnone j hj1 (by omega)
        · have hjeq : j = n + 1 := by omega
          subst hjeq; exact htry
      · rintro ⟨i, hi1, hi2, hsome, hnone⟩
        have hne : i ≠ n + 1 := by
          intro h; subst h; rw [htry] at hsome; cases hsome
        refine ⟨i, hi1, by omega, hsome, ?_⟩
        intro j hj1 hj2
        exact hnone j hj1 (by omega)

/-- C1.  For an import path containing a colon, the text before the
first colon is imported and the text after it is looked up as a single
final attribute.  For a dotted path, resolution returns `v` exactly
when some prefix length `i` both imports successfully and resolves the
remaining suffix by attribute access, while every longer prefix fails
(by failing to import **or** by failing attribute resolution — the
loop does not commit to the first importable prefix). -/
theorem c1_import_resolution {α : Type u} (env : PyEnv α) (import_path : String) :
    (strContains import_path ':' = true →
      import_object env import_path =
        (env.importModule (split1Str ':' import_path).1).bind
          (fun module => env.getattr module (split1Str ':' import_path).2)) ∧
    (strContains import_path ':' = false →
      ∀ v, (import_object env import_path = some v ↔
        ∃ i, 1 ≤ i ∧ i ≤ (splitDot import_path).length ∧
          tryAt env (splitDot import_path) i = some v ∧
          ∀ j, i < j → j ≤ (splitDot import_path).length →
            tryAt env (splitDot import_path) j = none)) := by
  constructor
  · intro hc
    simp only [import_object, hc, if_true]
  · intro hc v
    simp only [import_object, hc, Bool.false_eq_true, if_false]
    exact dotLoop_eq_some_iff env _ _ v

/-- Witness for C1: in the concrete runtime `envC` the path `a.b.c`
resolves to the object `4`, via the theorem's characterisation at
prefix length `1`. -/
theorem c1_witness : import_object envC "a.b.c" = some 4 := by
  refine ((c1_import_resolution envC "a.b.c").2 (by decide) 4).mpr
    ⟨1, by decide, by decide, by decide, ?_⟩
  intro j hj1 hj2
  have hlen : (splitDot "a.b.c").length = 3 := by decide
  rw [hlen] at hj2
  interval_cases j <;> decide

/-- Counterexample to C1 as stated: on the path `a.b.c` in runtime
`envC` the code resolves the object (skipping the importable module
`a.b` whose attribute `c` is missing), while the claimed procedure —
commit to the first prefix that imports successfully — fails. -/
theorem c1_counterexample :
    import_object envC "a.b.c" = some 4 ∧
      import_object_claimed envC "a.b.c" = none := by
  constructor <;> decide

/-! ## CLI entry point (`src/pretty_mod/cli.py` and `python/pretty_mod/cli.py`) -/

/-- Outcome of running the selected subcommand handler. -/
inductive CmdOutcome where
  | completed
  | interrupted
  | raised (msg : String)

/-- A CLI invocation as seen by `main` after argument parsing: either
no subcommand was selected, or a handler runs with some outcome. -/
inductive Invocation where
  | noCommand
  | run (outcome : CmdOutcome)

/-- Exit code, stderr lines and whether help text was printed. -/
structure ExitResult where
  exitCode : Nat
  stderrLines : List String
  printedHelp : Bool
deriving DecidableEq

/-- Shallow embedding of `main` in `src/pretty_mod/cli.py`: a parse
result without a `func` attribute prints help and exits 1; a completed
handler exits 0; `KeyboardInterrupt` prints `Interrupted` and exits
130; any other exception prints `Error: {e}` and exits 1. -/
def cliMain : Invocation → ExitResult
  | .noCommand => { exitCode := 1, stderrLines := [], printedHelp := true }
  | .run .completed => { exitCode := 0, stderrLines := [], printedHelp := false }
  | .run .interrupted => { exitCode := 130, stderrLines := ["Interrupted"], printedHelp := false }
  | .run (.raised m) => { exitCode := 1, stderrLines := ["Error: " ++ m], printedHelp := false }

/-- Shallow embedding of the outer dispatch of `main` in
`python/pretty_mod/cli.py`: falling off the end of a completed handler
leaves the process with exit code 0; `KeyboardInterrupt` exits 130
(this variant prints no message); any other escaping exception prints
`Error: {e}` and exits 1; an unrecognised command prints help and
exits 1. -/
def cliMainPy : Invocation → ExitResult
  | .noCommand => { exitCode := 1, stderrLines := [], printedHelp := true }
  | .run .completed => { exitCode := 0, stderrLines := [], printedHelp := false }
  | .run .interrupted => { exitCode := 130, stderrLines := [], printedHelp := false }
  | .run (.raised m) => { exitCode := 1, stderrLines := ["Error: " ++ m], printedHelp := false }

theorem strAppendAssoc (a b c : String) : a ++ b ++ c = a ++ (b ++ c) := by
  apply String.ext
  simp [String.data_append, List.append_assoc]

/-- C10.  Both CLI entry points exit 0 on a completed command, 130 on
keyboard interrupt, 1 with a single stderr line beginning `Error:`
when another exception escapes the handler, and print help and exit 1
when no subcommand was given. -/
theorem c10_cli_exit_codes (m : String) :
    (cliMain (.run .completed)).exitCode = 0 ∧
    (cliMainPy (.run .completed)).exitCode = 0 ∧
    (cliMain (.run .interrupted)).exitCode = 130 ∧
    (cliMainPy (.run .interrupted)).exitCode = 130 ∧
    cliMain (.run (.raised m)) =
      { exitCode := 1, stderrLines := ["Error: " ++ m], printedHelp := false } ∧
    cliMainPy (.run (.raised m)) =
      { exitCode := 1, stderrLines := ["Error: " ++ m], printedHelp := false } ∧
    (∃ rest, "Error: " ++ m = "Error:" ++ rest) ∧
    cliMain .noCommand = { exitCode := 1, stderrLines := [], printedHelp := true } ∧
    cliMainPy .noCommand = { exitCode := 1, stderrLines := [], printedHelp := true } := by
  refine ⟨rfl, rfl, rfl, rfl, rfl, rfl, ⟨" " ++ m, ?_⟩, rfl, rfl⟩
  rw [← strAppendAssoc]
  have h : "Error:" ++ " " = "Error: " := by decide
  rw [h]

/-! ## `PathResolver.parse`

Modelled from the spec: the import-path parser lives in the compiled
extension module `_pretty_mod`, which is not part of the source tree.
The definitions below follow §3/§4.1 of the specification: grammar
`[pkg][@version][::submodule][:attribute]`, precedence version marker
first, double-colon submodule marker next, single-colon attribute
marker last; an empty string or more than one attribute-separator
colon is a `SyntaxError`. -/

/-- Parsed import request (spec §3). -/
structure ImportSpecifier where
  package : String
  version_constraint : Option String
  submodule_path : List String
  attr : Option String
deriving DecidableEq

/-- Modelled from the spec: strip the `@version` marker (applied
first, §4.1). -/
def stripVersion (s : String) : String × Option String :=
  if strContains s '@' then
    let p := split1Str '@' s
    (p.1, some p.2)
  else (s, none)

/-- Split a character list at the first occurrence of the doubled
character `cc` (used for the `::` submodule marker). -/
def splitMarker2 (c : Char) : List Char → Option (List Char × List Char)
  | [] => none
  | a :: as =>
    match as with
    | [] => none
    | b :: rest =>
      if a == c && b == c then some ([], rest)
      else
        match splitMarker2 c as with
        | some r => some (a :: r.1, r.2)
        | none => none

/-- Modelled from the spec: split at the `::` submodule marker. -/
def splitDoubleColon (s : String) : String × Option String :=
  match splitMarker2 ':' s.data with
  | some r => (⟨r.1⟩, some ⟨r.2⟩)
  | none => (s, none)

/-- Number of attribute-separator colons: the colons of the string that
are not part of the (first) `::` submodule marker. -/
def attrColonCount (s : String) : Nat :=
  match splitMarker2 ':' s.data with
  | some r => countCharL ':' r.1 + countCharL ':' r.2
  | none => countCharL ':' s.data

/-- Modelled from the spec: split at the single-colon attribute marker
(applied last, §4.1). -/
def splitAttr (s : String) : String × Option String :=
  if strContains s ':' then
    let p := split1Str ':' s
    (p.1, some p.2)
  else (s, none)

/-- Modelled from the spec: `PathResolver.parse` (§4.1), absent from
the source tree (compiled extension `_pretty_mod`).  Fails on the
empty string and on two or more attribute-separator colons; otherwise
builds the `ImportSpecifier` by stripping the version marker, the
`::` submodule marker and the `:` attribute marker in that order. -/
def parse (raw : String) : Except String ImportSpecifier :=
  if raw.data = [] then .error "SyntaxError: empty import path"
  else
    let sv := stripVersion raw
    if 2 ≤ attrColonCount sv.1 then
      .error "SyntaxError: at most one attribute-separator colon is allowed"
    else
      let dc := splitDoubleColon sv.1
      match dc.2 with
      | some sub =>
        let pa := splitAttr dc.1
        let sa := splitAttr sub
        .ok { package := pa.1
              version_constraint := sv.2
              submodule_path := splitDot sa.1
              attr := sa.2.orElse (fun _ => pa.2) }
      | none =>
        let pa := splitAttr dc.1
        match splitDot pa.1 with
        | [] =>
          .ok { package := "", version_constraint := sv.2
                submodule_path := [], attr := pa.2 }
        | p :: rest =>
          .ok { package := p, version_constraint := sv.2
                submodule_path := rest, attr := pa.2 }

/-- `true` on `Except.ok`. -/
def isOkE {ε α : Type u} : Except ε α → Bool
  | .ok _ => true
  | .error _ => false

/-- C2.  `parse` succeeds exactly on the non-empty strings whose
version-stripped body has at most one attribute-separator colon, and
fails (with a `SyntaxError` message) on the empty string and on two or
more attribute-separator colons. -/
theorem c2_parse_colon_discipline (raw : String) :
    isOkE (parse raw) = true ↔
      ¬(raw.data = [] ∨ 2 ≤ attrColonCount (stripVersion raw).1) := by
  unfold parse
  by_cases h1 : raw.data = []
  · simp [h1, isOkE]
  · by_cases h2 : 2 ≤ attrColonCount (stripVersion raw).1
    · simp [h1, h2, isOkE]
    · simp only [h1, if_false, h2, if_neg, not_false_eq_true, not_or]
      cases hdc : (splitDoubleColon (stripVersion raw).1).2 with
      | some sub => simp [hdc, isOkE, h1, h2]
      | none =>
        cases hsd : splitDot (splitAttr (splitDoubleColon (stripVersion raw).1).1).1 with
        | nil => simp [hdc, hsd, isOkE, h1, h2]
        | cons p rest => simp [hdc, hsd, isOkE, h1, h2]

/-- Witness for C2: `json:loads` parses successfully. -/
theorem c2_witness : isOkE (parse "json:loads") = true :=
  (c2_parse_colon_discipline "json:loads").mpr (by decide)

/-! ## ModuleTreeExplorer

Modelled from the spec: the tree explorer lives in the compiled
extension module `_pretty_mod` (its Python predecessor
`_internal/explorer.py` is likewise absent from the source tree).  The
definitions below follow §4.4: for each visited module the static
strategy is preferred and the dynamic strategy is the fallback; the
root fails with `ModuleNotFoundError` only when both fail; a failing
submodule is recorded as a warning and omitted; recursion into
submodules happens only while the current depth is below `max_depth`;
discovery order is the deterministic order given by the environment. -/

/-- Declared API surface of one module (spec §3). -/
structure ApiSurface where
  functions : List String
  classes : List String
  constants : List String
  exported : Option (List String)
deriving DecidableEq

/-- The empty surface. -/
def apiEmpty : ApiSurface := ⟨[], [], [], none⟩

/-- Modelled from the spec: the two §4.4 strategies and submodule
discovery, abstracted over module paths given as segment lists. -/
structure ExploreEnv where
  staticSurface : List String → Option ApiSurface
  dynamicSurface : List String → Option ApiSurface
  submodulesOf : List String → List String

/-- Prefer the static strategy, fall back to the dynamic one (§4.4). -/
def getSurface (env : ExploreEnv) (path : List String) : Option ApiSurface :=
  match env.staticSurface path with
  | some api => some api
  | none => env.dynamicSurface path

/-- One explored module (spec §3 `ModuleNode`). -/
inductive ModuleNode where
  | node (name : String) (api : ApiSurface) (submodules : List (String × ModuleNode))

def ModuleNode.name : ModuleNode → String
  | .node n _ _ => n

def ModuleNode.api : ModuleNode → ApiSurface
  | .node _ a _ => a

def ModuleNode.submodules : ModuleNode → List (String × ModuleNode)
  | .node _ _ s => s

/-- Last segment of a module path (the node's display name). -/
def pathName : List String → String
  | [] => ""
  | [x] => x
  | _ :: xs => pathName xs

/-- Modelled from the spec: depth-bounded recursive exploration.  The
first argument is the remaining depth budget; a module whose surface
cannot be obtained by either strategy yields `none`; children are
explored only while budget remains; a failing child contributes a
warning instead of a subtree. -/
def exploreAux (env : ExploreEnv) : Nat → List String → Option (ModuleNode × List String)
  | 0, path =>
    (getSurface env path).map (fun api => (.node (pathName path) api [], []))
  | r + 1, path =>
    (getSurface env path).map (fun api =>
      let names := env.submodulesOf path
      let subs := names.filterMap
        (fun name => (exploreAux env r (path ++ [name])).map (fun res => (name, res.1)))
      let warns := names.foldr
        (fun name acc =>
          match exploreAux env r (path ++ [name]) with
          | none => ("Warning: could not import " ++ name) :: acc
          | some res => res.2 ++ acc) []
      (.node (pathName path) api subs, warns))

/-- Modelled from the spec: `ModuleTreeExplorer.explore` — the root is
the only failure point (`ModuleNotFoundError`); the result carries the
tree and the collected non-fatal warnings. -/
def exploreRoot (env : ExploreEnv) (specifier : List String) (max_depth : Nat) :
    Except String (ModuleNode × List String) :=
  match exploreAux env max_depth specifier with
  | none => .error "ModuleNotFoundError"
  | some r => .ok r

/-- First child with the given name (the `submodules` mapping lookup). -/
def childLookup (n : String) : List (String × ModuleNode) → Option ModuleNode
  | [] => none
  | (m, c) :: rest => if m = n then some c else childLookup n rest

/-- Navigate a tree along a path of submodule names. -/
def subtreeAt : List String → ModuleNode → Option ModuleNode
  | [], t => some t
  | n :: rest, t => (childLookup n t.submodules).bind (subtreeAt rest)

/-- Concrete exploration environment: module `m` has a healthy
submodule `sub` and a submodule `bad` that fails both strategies. -/
def envT : ExploreEnv where
  staticSurface := fun path =>
    match path with
    | ["m"] => some apiEmpty
    | ["m", "sub"] => some apiEmpty
    | _ => none
  dynamicSurface := fun _ => none
  submodulesOf := fun path =>
    match path with
    | ["m"] => ["sub", "bad"]
    | _ => []

theorem exploreAux_zero (env : ExploreEnv) (path : List String) :
    exploreAux env 0 path =
      (getSurface env path).map (fun api => (.node (pathName path) api [], [])) := rfl

theorem exploreAux_succ (env : ExploreEnv) (r : Nat) (path : List String) :
    exploreAux env (r + 1) path =
      (getSurface env path).map (fun api =>
        (.node (pathName path) api
          ((env.submodulesOf path).filterMap
            (fun name => (exploreAux env r (path ++ [name])).map (fun res => (name, res.1)))),
         (env.submodulesOf path).foldr
           (fun name acc =>
             match exploreAux env r (path ++ [name]) with
             | none => ("Warning: could not import " ++ name) :: acc
             | some res => res.2 ++ acc) [])) := rfl

theorem exploreAux_isSome (env : ExploreEnv) (d : Nat) (path : List String) :
    (exploreAux env d path).isSome = (getSurface env path).isSome := by
  cases d <;> cases h : getSurface env path <;>
    simp [exploreAux_zero, exploreAux_succ, h]

theorem exploreAux_name_api (env : ExploreEnv) (d : Nat) (path : List String)
    (t : ModuleNode) (w : List String) (h : exploreAux env d path = some (t, w)) :
    getSurface env path = some t.api ∧ t.name = pathName path := by
  cases d with
  | zero =>
    cases hg : getSurface env path <;> rw [exploreAux_zero, hg] at h
    · cases h
    · cases h; exact ⟨rfl, rfl⟩
  | succ n =>
    cases hg : getSurface env path <;> rw [exploreAux_succ, hg] at h
    · cases h
    · cases h; exact ⟨rfl, rfl⟩

theorem exploreAux_zero_submodules (env : ExploreEnv) (path : List String)
    (t : ModuleNode) (w : List String) (h : exploreAux env 0 path = some (t, w)) :
    t.submodules = [] ∧ w = [] := by
  cases hg : getSurface env path <;> rw [exploreAux_zero, hg] at h
  · cases h
  · cases h; exact ⟨rfl, rfl⟩

theorem exploreAux_succ_submodules (env : ExploreEnv) (r : Nat) (path : List String)
    (t : ModuleNode) (w : List String) (h : exploreAux env (r + 1) path = some (t, w)) :
    t.submodules = (env.submodulesOf path).filterMap
      (fun name => (exploreAux env r (path ++ [name])).map (fun res => (name, res.1))) := by
  cases hg : getSurface env path <;> rw [exploreAux_succ, hg] at h
  · cases h
  · cases h; rfl

/-- C5.  Any tree returned by exploration at `max_depth = 0` has an
empty submodules mapping, whatever the environment discovers. -/
theorem c5_depth_zero_no_submodules (env : ExploreEnv) (specifier : List String)
    (t : ModuleNode) (w : List String)
    (h : exploreRoot env specifier 0 = .ok (t, w)) :
    t.submodules = [] := by
  unfold exploreRoot at h
  cases ha : exploreAux env 0 specifier with
  | none => rw [ha] at h; cases h
  | some r =>
    rw [ha] at h
    injection h with h2
    subst h2
    exact (exploreAux_zero_submodules env specifier t w ha).1

/-- Witness for C5: exploring `m` at depth 0 in `envT` (which has two
discovered submodules) yields no submodules. -/
theorem c5_witness :
    (ModuleNode.node "m" apiEmpty []).submodules = [] :=
  c5_depth_zero_no_submodules envT ["m"] (ModuleNode.node "m" apiEmpty []) [] rfl

theorem exploreAux_succ_warns (env : ExploreEnv) (r : Nat) (path : List String)
    (t : ModuleNode) (w : List String) (h : exploreAux env (r + 1) path = some (t, w)) :
    w = (env.submodulesOf path).foldr
      (fun name acc =>
        match exploreAux env r (path ++ [name]) with
        | none => ("Warning: could not import " ++ name) :: acc
        | some res => res.2 ++ acc) [] := by
  cases hg : getSurface env path <;> rw [exploreAux_succ, hg] at h
  · cases h
  · cases h; rfl

theorem getSurface_eq_none (env : ExploreEnv) (path : List String) :
    getSurface env path = none ↔
      env.staticSurface path = none ∧ env.dynamicSurface path = none := by
  unfold getSurface
  cases h : env.staticSurface path <;> simp [h]

theorem exploreAux_eq_none_iff (env : ExploreEnv) (d : Nat) (path : List String) :
    exploreAux env d path = none ↔ getSurface env path = none := by
  have h := exploreAux_isSome env d path
  constructor
  · intro hn
    rw [hn] at h
    cases hg : getSurface env path with
    | none => rfl
    | some api => rw [hg] at h; simp at h
  · intro hg
    rw [hg] at h
    cases ha : exploreAux env d path with
    | none => rfl
    | some r => rw [ha] at h; simp at h

theorem childLookup_filterMap
    (g : String → Option (ModuleNode × List String)) (n : String) :
    ∀ l : List String,
      childLookup n (l.filterMap (fun m => (g m).map (fun res => (m, res.1)))) =
        (if n ∈ l then g n else none).map (fun res => res.1) := by
  intro l
  induction l with
  | nil => simp [childLookup]
  | cons m l ih =>
    cases hg : g m with
    | none =>
      rw [List.filterMap_cons_none (by simp [hg])]
      rw [ih]
      by_cases hnm : n = m
      · subst hnm
        by_cases hnl : n ∈ l <;> simp [hnl, hg]
      · simp [List.mem_cons, hnm]
    | some res =>
      have hcons : List.filterMap (fun m => Option.map (fun res => (m, res.1)) (g m)) (m :: l)
          = (m, res.1) :: List.filterMap (fun m => Option.map (fun res => (m, res.1)) (g m)) l := by
        simp [List.filterMap_cons, hg]
      rw [hcons]
      show (if m = n then some res.1 else
        childLookup n (l.filterMap (fun m => (g m).map (fun res => (m, res.1))))) = _
      by_cases hmn : m = n
      · subst hmn; simp [hg]
      · rw [if_neg hmn, ih]
        by_cases hnl : n ∈ l
        · rw [if_pos hnl, if_pos (List.mem_cons_of_mem _ hnl)]
        · have h2 : n ∉ m :: l := by
            intro hc
            rcases List.mem_cons.mp hc with h | h
            · exact hmn h.symm
            · exact hnl h
          rw [if_neg hnl, if_neg h2]

theorem warn_mem (f : String → Option (ModuleNode × List String)) :
    ∀ (l : List String) (n : String), n ∈ l → f n = none →
      ("Warning: could not import " ++ n) ∈
        l.foldr (fun name acc =>
          match f name with
          | none => ("Warning: could not import " ++ name) :: acc
          | some res => res.2 ++ acc) [] := by
  intro l
  induction l with
  | nil => intro n hmem _; cases hmem
  | cons m l ih =>
    intro n hmem hf
    rcases List.mem_cons.mp hmem with h | h
    · subst h
      simp only [List.foldr_cons, hf]
      exact List.mem_cons_self _ _
    · have hmem2 := ih n h hf
      simp only [List.foldr_cons]
      cases hm : f m with
      | none => exact List.mem_cons_of_mem _ hmem2
      | some res => exact List.mem_append_right _ hmem2

/-- C4.  The root exploration fails (with `ModuleNotFoundError`)
exactly when both the static and the dynamic strategy fail for the
root module; a discovered submodule whose surface both strategies fail
to produce is omitted from the returned tree and recorded as a
warning, while the overall exploration still succeeds. -/
theorem c4_failure_containment (env : ExploreEnv) (specifier : List String) (d : Nat) :
    (exploreRoot env specifier d = .error "ModuleNotFoundError" ↔
      env.staticSurface specifier = none ∧ env.dynamicSurface specifier = none) ∧
    (∀ name t w, exploreRoot env specifier (d + 1) = .ok (t, w) →
      name ∈ env.submodulesOf specifier →
      getSurface env (specifier ++ [name]) = none →
      childLookup name t.submodules = none ∧
      ("Warning: could not import " ++ name) ∈ w) := by
  constructor
  · unfold exploreRoot
    cases ha : exploreAux env d specifier with
    | none =>
      have hg := (exploreAux_eq_none_iff env d specifier).mp ha
      rw [getSurface_eq_none] at hg
      simp [hg]
    | some r =>
      have hne2 : ¬(env.staticSurface specifier = none ∧
          env.dynamicSurface specifier = none) := by
        intro hboth
        have hg := (getSurface_eq_none env specifier).mpr hboth
        have hn := (exploreAux_eq_none_iff env d specifier).mpr hg
        rw [ha] at hn
        cases hn
      constructor
      · intro h; cases h
      · intro h; exact absurd h hne2
  · intro name t w hok hmem hg
    unfold exploreRoot at hok
    cases ha : exploreAux env (d + 1) specifier with
    | none => rw [ha] at hok; cases hok
    | some r =>
      rw [ha] at hok
      injection hok with h2
      subst h2
      have hnone : exploreAux env d (specifier ++ [name]) = none :=
        (exploreAux_eq_none_iff env d _).mpr hg
      constructor
      · rw [exploreAux_succ_submodules env d specifier t w ha,
            childLookup_filterMap (fun m => exploreAux env d (specifier ++ [m])) name]
        simp [hmem, hnone]
      · rw [exploreAux_succ_warns env d specifier t w ha]
        exact warn_mem (fun m => exploreAux env d (specifier ++ [m]))
          (env.submodulesOf specifier) name hmem hnone

/-- Witness for C4: in `envT` at depth 1, the failing submodule `bad`
is omitted from the tree and leaves a warning, while `sub` is kept. -/
theorem c4_witness :
    childLookup "bad"
      (ModuleNode.node "m" apiEmpty
        [("sub", ModuleNode.node "sub" apiEmpty [])]).submodules = none ∧
    ("Warning: could not import " ++ "bad") ∈ ["Warning: could not import bad"] :=
  (c4_failure_containment envT ["m"] 0).2 "bad"
    (ModuleNode.node "m" apiEmpty [("sub", ModuleNode.node "sub" apiEmpty [])])
    ["Warning: could not import bad"] rfl (by decide) rfl

theorem subtreeAt_mono (env : ExploreEnv) :
    ∀ (p : List String) (d : Nat) (path : List String) (t t' s : ModuleNode)
      (w w' : List String),
      exploreAux env d path = some (t, w) →
      exploreAux env (d + 1) path = some (t', w') →
      subtreeAt p t = some s →
      ∃ s', subtreeAt p t' = some s' ∧ s'.name = s.name ∧ s'.api = s.api := by
  intro p
  induction p with
  | nil =>
    intro d path t t' s w w' ht ht' hs
    simp only [subtreeAt] at hs
    injection hs with hts
    subst hts
    refine ⟨t', rfl, ?_, ?_⟩
    · rw [(exploreAux_name_api env d path t w ht).2,
         (exploreAux_name_api env (d + 1) path t' w' ht').2]
    · have h1 := (exploreAux_name_api env d path t w ht).1
      have h2 := (exploreAux_name_api env (d + 1) path t' w' ht').1
      rw [h1] at h2
      injection h2 with h3
      exact h3.symm
  | cons n rest ih =>
    intro d path t t' s w w' ht ht' hs
    cases d with
    | zero =>
      have hz := (exploreAux_zero_submodules env path t w ht).1
      simp [subtreeAt, hz, childLookup] at hs
    | succ r =>
      have hsubs := exploreAux_succ_submodules env r path t w ht
      have hsubs' := exploreAux_succ_submodules env (r + 1) path t' w' ht'
      simp only [subtreeAt] at hs ⊢
      rw [hsubs, childLookup_filterMap (fun m => exploreAux env r (path ++ [m])) n] at hs
      rw [hsubs', childLookup_filterMap (fun m => exploreAux env (r + 1) (path ++ [m])) n]
      by_cases hmem : n ∈ env.submodulesOf path
      · rw [if_pos hmem] at hs
        rw [if_pos hmem]
        cases hc : exploreAux env r (path ++ [n]) with
        | none => rw [hc] at hs; simp at hs
        | some cres =>
          rw [hc] at hs
          simp only [Option.map_some', Option.some_bind] at hs
          have hsome2 : (exploreAux env (r + 1) (path ++ [n])).isSome = true := by
            rw [exploreAux_isSome, ← exploreAux_isSome env r (path ++ [n]), hc]
            rfl
          cases hc2 : exploreAux env (r + 1) (path ++ [n]) with
          | none => rw [hc2] at hsome2; cases hsome2
          | some cres2 =>
            obtain ⟨s', hsub2, hname, hapi⟩ :=
              ih r (path ++ [n]) cres.1 cres2.1 s cres.2 cres2.2
                (by rw [hc]) (by rw [hc2]) hs
            refine ⟨s', ?_, hname, hapi⟩
            simp only [Option.map_some', Option.some_bind]
            exact hsub2
      · rw [if_neg hmem] at hs
        simp at hs

/-- C6.  Exploring at depth `d + 1` preserves every node of the tree
explored at depth `d`: any subtree reachable in the depth-`d` tree is
reachable along the same path in the depth-`(d+1)` tree, with the same
name and API surface. -/
theorem c6_depth_monotone (env : ExploreEnv) (specifier : List String) (d : Nat)
    (p : List String) (t t' s : ModuleNode) (w w' : List String)
    (h1 : exploreRoot env specifier d = .ok (t, w))
    (h2 : exploreRoot env specifier (d + 1) = .ok (t', w'))
    (h3 : subtreeAt p t = some s) :
    ∃ s', subtreeAt p t' = some s' ∧ s'.name = s.name ∧ s'.api = s.api := by
  unfold exploreRoot at h1 h2
  cases ha : exploreAux env d specifier with
  | none => rw [ha] at h1; cases h1
  | some r =>
    rw [ha] at h1
    injection h1 with e1
    subst e1
    cases hb : exploreAux env (d + 1) specifier with
    | none => rw [hb] at h2; cases h2
    | some r2 =>
      rw [hb] at h2
      injection h2 with e2
      subst e2
      exact subtreeAt_mono env p d specifier t t' s w w' ha hb h3

/-- Witness for C6: the depth-1 tree of `m` in `envT` has its `sub`
child preserved (same name and surface) in the depth-2 tree. -/
theorem c6_witness :
    ∃ s', subtreeAt ["sub"]
        (ModuleNode.node "m" apiEmpty [("sub", ModuleNode.node "sub" apiEmpty [])]) =
        some s' ∧
      s'.name = (ModuleNode.node "sub" apiEmpty []).name ∧
      s'.api = (ModuleNode.node "sub" apiEmpty []).api :=
  c6_depth_monotone envT ["m"] 1 ["sub"]
    (ModuleNode.node "m" apiEmpty [("sub", ModuleNode.node "sub" apiEmpty [])])
    (ModuleNode.node "m" apiEmpty [("sub", ModuleNode.node "sub" apiEmpty [])])
    (ModuleNode.node "sub" apiEmpty [])
    ["Warning: could not import bad"] ["Warning: could not import bad"]
    rfl rfl rfl

/-! ## StaticParser

Modelled from the spec: `parse_declarations` (§4.3) lives in the
compiled extension module `_pretty_mod`, absent from the source tree.
The declaration-level AST keeps exactly what §4.3 uses: top-level
`def`/`class` statements and top-level simple assignments, whose
right-hand side is a literal string sequence, another literal, or a
non-literal expression. -/

/-- Right-hand side of a top-level assignment, as far as §4.3 looks. -/
inductive PyExpr where
  | strList (names : List String)
  | lit (text : String)
  | nonLiteral
deriving DecidableEq

/-- A top-level statement of the module source. -/
inductive Stmt where
  | funcDef (name : String)
  | classDef (name : String)
  | assign (target : String) (value : PyExpr)
deriving DecidableEq

/-- Modelled from the spec: the contribution of one top-level
statement (§4.3): `def` → functions, `class` → classes, an assignment
to the export-list name `__all__` populates `exported` only when the
right-hand side is a literal string sequence (otherwise `exported` is
left unset rather than guessed), and any other assignment target is a
module-level constant. -/
def declStep (acc : ApiSurface) : Stmt → ApiSurface
  | .funcDef n => { acc with functions := acc.functions ++ [n] }
  | .classDef n => { acc with classes := acc.classes ++ [n] }
  | .assign t v =>
    if t = "__all__" then
      match v with
      | .strList names => { acc with exported := some names }
      | _ => acc
    else { acc with constants := acc.constants ++ [t] }

/-- Modelled from the spec: `StaticParser.parse_declarations` (§4.3),
a pure fold over the top-level statements. -/
def parse_declarations (stmts : List Stmt) : ApiSurface :=
  stmts.foldl declStep apiEmpty

/-- C8.  A source with exactly one top-level function, one class and
one module-level constant yields exactly those three names in their
categories with `exported` unset; declaring `__all__ = [...]` in
addition sets `exported` to exactly the listed names while the
categorized sets keep the declared symbols. -/
theorem c8_round_trip (f c x : String) (v : PyExpr) (l : List String)
    (hx : x ≠ "__all__") :
    parse_declarations [.funcDef f, .classDef c, .assign x v] =
      { functions := [f], classes := [c], constants := [x], exported := none } ∧
    parse_declarations
        [.funcDef f, .classDef c, .assign x v, .assign "__all__" (.strList l)] =
      { functions := [f], classes := [c], constants := [x], exported := some l } := by
  constructor <;> simp [parse_declarations, declStep, hx, apiEmpty]

/-- Witness for C8: the spec's concrete scenario `def f(): pass`,
`class C: pass`, `X = 1`, `__all__ = ["f"]`. -/
theorem c8_witness :
    parse_declarations [.funcDef "f", .classDef "C", .assign "X" (.lit "1")] =
      { functions := ["f"], classes := ["C"], constants := ["X"], exported := none } ∧
    parse_declarations
        [.funcDef "f", .classDef "C", .assign "X" (.lit "1"),
         .assign "__all__" (.strList ["f"])] =
      { functions := ["f"], classes := ["C"], constants := ["X"],
        exported := some ["f"] } :=
  c8_round_trip "f" "C" "X" (.lit "1") ["f"] (by decide)

/-! ## SignatureResolver

Modelled from the spec: `SignatureResolver.resolve` (§4.5) lives in
the compiled extension module `_pretty_mod`, absent from the source
tree.  Import-resolution follows `import_object`; callability and
signature extraction are supplied by the runtime environment (the
indirection patterns of §4.5 step 3 are folded into the environment's
`signatureOf`). -/

/-- One parameter of a callable (spec §3 `ParameterInfo`). -/
structure ParameterInfo where
  name : String
  kind : String
  defaultVal : Option String
  typeAnn : Option String
deriving DecidableEq

/-- Extracted signature (spec §3 `SignatureRecord`). -/
structure SignatureRecord where
  qualified_name : String
  parameters : List ParameterInfo
  returnTy : Option String
  resolution_path : List String
deriving DecidableEq

/-- Terminal outcome of signature resolution: a record, or a normal
`Unavailable` outcome carrying the attempted symbol name and a
human-readable reason — never an exception. -/
inductive SigResult where
  | record : SignatureRecord → SigResult
  | unavailable (symbol reason : String) : SigResult
deriving DecidableEq

/-- Runtime environment of the resolver. -/
structure SigEnv (α : Type u) where
  py : PyEnv α
  callable : α → Bool
  signatureOf : α → List ParameterInfo
  returnOf : α → Option String

/-- The attempted symbol name: the text after the colon, or the last
dotted segment. -/
def symbolOf (import_path : String) : String :=
  if strContains import_path ':' then (split1Str ':' import_path).2
  else (splitDot import_path).getLastD import_path

/-- Modelled from the spec: `SignatureResolver.resolve` (§4.5).  A
failed import yields `Unavailable` with a "could not import" reason;
a resolvable but non-callable object yields `Unavailable` with a
"not callable" reason; a callable object yields its record. -/
def resolveSig {α : Type u} (env : SigEnv α) (import_path : String) : SigResult :=
  let symbol := symbolOf import_path
  match import_object env.py import_path with
  | none => .unavailable symbol ("could not import " ++ import_path)
  | some obj =>
    if env.callable obj then
      .record { qualified_name := symbol, parameters := env.signatureOf obj,
                returnTy := env.returnOf obj, resolution_path := [] }
    else .unavailable symbol "not callable"

/-- Modelled from the spec: callers render an `Unavailable` outcome
directly (a total function — no fault path exists). -/
def renderSig : SigResult → String
  | .record r => "sig " ++ r.qualified_name
  | .unavailable symbol reason => "Error: " ++ reason ++ " (" ++ symbol ++ ")"

/-- C3.  Signature resolution on a name that cannot be imported
returns an `Unavailable` outcome whose reason mentions "could not
import"; on a resolvable but non-callable object it returns an
`Unavailable` outcome with reason "not callable"; both carry the
attempted symbol name, and rendering an `Unavailable` outcome is a
total operation, not a fault. -/
theorem c3_unavailable_outcomes {α : Type u} (env : SigEnv α) (import_path : String) :
    (import_object env.py import_path = none →
      resolveSig env import_path =
        .unavailable (symbolOf import_path) ("could not import " ++ import_path)) ∧
    (∀ obj, import_object env.py import_path = some obj → env.callable obj = false →
      resolveSig env import_path =
        .unavailable (symbolOf import_path) "not callable") ∧
    (∀ symbol reason, renderSig (.unavailable symbol reason) =
      "Error: " ++ reason ++ " (" ++ symbol ++ ")") := by
  refine ⟨?_, ?_, ?_⟩
  · intro h
    unfold resolveSig
    rw [h]
  · intro obj h hc
    unfold resolveSig
    rw [h]
    simp [hc]
  · intro symbol reason
    rfl

/-- Concrete runtime for C3: `sys` has the non-callable data attribute
`version_info`; nothing is callable. -/
def envSig : SigEnv Nat where
  py :=
    { importModule := fun path =>
        match path with
        | "sys" => some 10
        | _ => none
      getattr := fun obj attrName =>
        match obj, attrName with
        | 10, "version_info" => some 11
        | _, _ => none }
  callable := fun _ => false
  signatureOf := fun _ => []
  returnOf := fun _ => none

/-- Witness for C3: `sys:version_info` resolves to a non-callable
object and produces the "not callable" outcome. -/
theorem c3_witness :
    resolveSig envSig "sys:version_info" =
      .unavailable (symbolOf "sys:version_info") "not callable" :=
  (c3_unavailable_outcomes envSig "sys:version_info").2.1 11 (by decide) rfl

/-! ## PackageAcquirer

Modelled from the spec: `PackageAcquirer.acquire` (§4.2) lives in the
compiled extension module `_pretty_mod`, absent from the source tree.
The registry is an abstract environment; state carries the
process-lifetime memo keyed by `(name, version_constraint)` (§3
`AcquiredPackage` lifecycle), the on-disk cache keyed by
`(name, resolved_version)`, and instrumentation counters for network
accesses and artifact downloads. -/

inductive AcqSource where
  | alreadyPresent
  | downloaded
deriving DecidableEq

/-- An acquired package (spec §3). -/
structure AcquiredPackage where
  name : String
  resolved_version : String
  local_path : String
  source : AcqSource
deriving DecidableEq

/-- Abstract registry and local search path. -/
structure Registry where
  localPath : String → Option String
  resolveVersion : String → Option String → Option String
  pathFor : String → String → String

/-- Acquirer state. -/
structure AcqState where
  memo : List ((String × Option String) × AcquiredPackage)
  diskCache : List ((String × String) × String)
  downloads : Nat
  networkCalls : Nat
deriving DecidableEq

/-- First association for a key. -/
def lookupA {κ ν : Type} [DecidableEq κ] (k : κ) : List (κ × ν) → Option ν
  | [] => none
  | (k2, v) :: rest => if k2 = k then some v else lookupA k rest

/-- Modelled from the spec: the registry path of `acquire` — query the
metadata endpoint (a network access), then either reuse the on-disk
cache entry for `(name, resolved_version)` or download and extract
into it (§4.2 step 2). -/
def fetch (reg : Registry) (st : AcqState) (name : String)
    (constraint : Option String) : Except String (AcquiredPackage × AcqState) :=
  match reg.resolveVersion name constraint with
  | none => .error "NotFoundError: no matching distribution"
  | some ver =>
    match lookupA (name, ver) st.diskCache with
    | some path =>
      let pkg : AcquiredPackage := ⟨name, ver, path, .downloaded⟩
      .ok (pkg, { st with
                  memo := ((name, constraint), pkg) :: st.memo,
                  networkCalls := st.networkCalls + 1 })
    | none =>
      let path := reg.pathFor name ver
      let pkg : AcquiredPackage := ⟨name, ver, path, .downloaded⟩
      .ok (pkg, { memo := ((name, constraint), pkg) :: st.memo,
                  diskCache := ((name, ver), path) :: st.diskCache,
                  downloads := st.downloads + 1,
                  networkCalls := st.networkCalls + 1 })

/-- Modelled from the spec: `PackageAcquirer.acquire` (§4.2).  The
process-lifetime memo is consulted first (repeat resolutions are
lookups, §3); otherwise, with no version constraint, a locally
resolvable package is returned tagged already-present (§4.2 step 1);
otherwise the registry path runs. -/
def acquire (reg : Registry) (st : AcqState) (name : String)
    (constraint : Option String) : Except String (AcquiredPackage × AcqState) :=
  match lookupA (name, constraint) st.memo with
  | some pkg => .ok (pkg, st)
  | none =>
    match constraint with
    | none =>
      match reg.localPath name with
      | some p =>
        let pkg : AcquiredPackage := ⟨name, "local", p, .alreadyPresent⟩
        .ok (pkg, { st with memo := ((name, none), pkg) :: st.memo })
      | none => fetch reg st name none
    | some c => fetch reg st name (some c)

theorem fetch_memoizes (reg : Registry) (st : AcqState) (name : String)
    (constraint : Option String) (pkg : AcquiredPackage) (st' : AcqState)
    (h : fetch reg st name constraint = .ok (pkg, st')) :
    lookupA (name, constraint) st'.memo = some pkg := by
  unfold fetch at h
  split at h
  · cases h
  · split at h
    · injection h with h2
      injection h2 with h3 h4
      subst h3; subst h4
      simp [lookupA]
    · injection h with h2
      injection h2 with h3 h4
      subst h3; subst h4
      simp [lookupA]

theorem acquire_memoizes (reg : Registry) (st : AcqState) (name : String)
    (constraint : Option String) (pkg : AcquiredPackage) (st' : AcqState)
    (h : acquire reg st name constraint = .ok (pkg, st')) :
    lookupA (name, constraint) st'.memo = some pkg := by
  unfold acquire at h
  cases hm : lookupA (name, constraint) st.memo with
  | some pkg0 =>
    rw [hm] at h
    injection h with h2
    injection h2 with h3 h4
    subst h3; subst h4
    exact hm
  | none =>
    rw [hm] at h
    cases constraint with
    | some c => exact fetch_memoizes reg st name (some c) pkg st' h
    | none =>
      cases hl : reg.localPath name with
      | some p =>
        rw [hl] at h
        injection h with h2
        injection h2 with h3 h4
        subst h3; subst h4
        simp [lookupA]
      | none =>
        rw [hl] at h
        exact fetch_memoizes reg st name none pkg st' h

theorem fetch_downloads_of_disk (reg : Registry) (st : AcqState) (name : String)
    (constraint : Option String) (ver p : String)
    (hver : reg.resolveVersion name constraint = some ver)
    (hdisk : lookupA (name, ver) st.diskCache = some p)
    (pkg : AcquiredPackage) (st' : AcqState)
    (h : fetch reg st name constraint = .ok (pkg, st')) :
    st'.downloads = st.downloads := by
  unfold fetch at h
  split at h
  · cases h
  · rename_i ver2 hv2
    rw [hver] at hv2
    injection hv2 with hveq
    subst hveq
    split at h
    · injection h with h2
      injection h2 with h3 h4
      subst h4
      rfl
    · rename_i hd2
      rw [hdisk] at hd2
      cases hd2

/-- C7.  A second `acquire` with the identical `(name, constraint)`
pair returns the very same package (hence the same `local_path`) and
the very same state — in particular no additional network access or
download happens; and with the on-disk cache keyed by
`(name, resolved_version)` already holding the resolved version, a
call never downloads. -/
theorem c7_acquire_cached (reg : Registry) (st : AcqState) (name : String)
    (constraint : Option String) :
    (∀ pkg st', acquire reg st name constraint = .ok (pkg, st') →
      acquire reg st' name constraint = .ok (pkg, st')) ∧
    (∀ ver p, reg.resolveVersion name constraint = some ver →
      lookupA (name, ver) st.diskCache = some p →
      ∀ pkg st', acquire reg st name constraint = .ok (pkg, st') →
        st'.downloads = st.downloads) := by
  constructor
  · intro pkg st' h
    have hmem := acquire_memoizes reg st name constraint pkg st' h
    unfold acquire
    rw [hmem]
  · intro ver p hver hdisk pkg st' h
    unfold acquire at h
    cases hm : lookupA (name, constraint) st.memo with
    | some pkg0 =>
      rw [hm] at h
      injection h with h2
      injection h2 with h3 h4
      subst h4
      rfl
    | none =>
      rw [hm] at h
      cases constraint with
      | some c => exact fetch_downloads_of_disk reg st name (some c) ver p hver hdisk pkg st' h
      | none =>
        cases hl : reg.localPath name with
        | some q =>
          rw [hl] at h
          injection h with h2
          injection h2 with h3 h4
          subst h4
          rfl
        | none =>
          rw [hl] at h
          exact fetch_downloads_of_disk reg st name none ver p hver hdisk pkg st' h

/-- Concrete registry for C7: `toml` is not local, resolves to
version `1.0` and downloads to a cache path. -/
def regW : Registry where
  localPath := fun _ => none
  resolveVersion := fun name _ =>
    match name with
    | "toml" => some "1.0"
    | _ => none
  pathFor := fun name ver => "/cache/" ++ name ++ "-" ++ ver

/-- The state after first acquiring `toml` from the empty state. -/
def stW : AcqState :=
  { memo := [(("toml", none),
      ⟨"toml", "1.0", "/cache/toml-1.0", .downloaded⟩)],
    diskCache := [(("toml", "1.0"), "/cache/toml-1.0")],
    downloads := 1, networkCalls := 1 }

/-- Witness for C7: re-acquiring `toml` after the first acquisition
returns the same package and leaves the state (hence the download and
network counters) unchanged. -/
theorem c7_witness :
    acquire regW stW "toml" none =
      .ok (⟨"toml", "1.0", "/cache/toml-1.0", .downloaded⟩, stW) :=
  (c7_acquire_cached regW ⟨[], [], 0, 0⟩ "toml" none).1
    ⟨"toml", "1.0", "/cache/toml-1.0", .downloaded⟩ stW rfl

/-! ## Warnings channel and the `--quiet` flag

`cliTree` embeds the `tree` branch of `main` in
`python/pretty_mod/cli.py` (including its outer exception handler):
the informational download notice goes to stderr only when `--quiet`
is absent; fatal errors print regardless.  `emitWarnings` is modelled
from the spec (§6): the warnings channel is suppressible by the
caller-provided quiet flag. -/

/-- Result of one `display_tree` attempt inside the CLI. -/
inductive TreeAttempt where
  | ok (output : String)
  | moduleNotFound (msg : String)
  | otherError (msg : String)

/-- The collaborating calls made by the `tree` command. -/
structure TreeEnv where
  firstTry : TreeAttempt
  download : Except String String
  secondTry : TreeAttempt

/-- Final outcome of the command. -/
inductive CliOutcome where
  | success (output : String)
  | exit (code : Nat) (stderrLine : String)
deriving DecidableEq

/-- The informational notice printed before a download attempt. -/
def downloadNotice (module : String) : String :=
  "Module '" ++ module ++ "' not found locally. Attempting to download from PyPI..."

/-- Shallow embedding of the `tree` branch of `main` in
`python/pretty_mod/cli.py` and its outer handler: a module-not-found
failure triggers the download fallback (with a notice unless quiet),
any failure inside the fallback prints `Error downloading package:`
and exits 1, any other first-try exception escapes to the outer
handler (`Error:` and exit 1).  The second component collects the
suppressible informational notices. -/
def cliTree (env : TreeEnv) (module : String) (quiet : Bool) :
    CliOutcome × List String :=
  match env.firstTry with
  | .ok out => (.success out, [])
  | .otherError m => (.exit 1 ("Error: " ++ m), [])
  | .moduleNotFound _ =>
    let notices := if quiet then [] else [downloadNotice module]
    match env.download with
    | .error e => (.exit 1 ("Error downloading package: " ++ e), notices)
    | .ok _path =>
      match env.secondTry with
      | .ok out => (.success out, notices)
      | .moduleNotFound m => (.exit 1 ("Error downloading package: " ++ m), notices)
      | .otherError m => (.exit 1 ("Error downloading package: " ++ m), notices)

/-- Modelled from the spec: the warnings channel (§6) — non-fatal
notices are printed only when not suppressed by the quiet flag. -/
def emitWarnings (quiet : Bool) (ws : List String) : List String :=
  if quiet then [] else ws

/-- C9.  The command outcome never depends on the quiet flag (notices
never block or fail the operation); with quiet set, no notice is
emitted; and the explorer's collected submodule warnings are likewise
fully suppressed by quiet while the returned tree is already fixed by
the successful exploration. -/
theorem c9_quiet_nonblocking (env : TreeEnv) (module : String) :
    (cliTree env module true).1 = (cliTree env module false).1 ∧
    (cliTree env module true).2 = [] ∧
    (∀ eenv spec d node ws, exploreRoot eenv spec d = Except.ok (node, ws) →
      emitWarnings true ws = [] ∧ emitWarnings false ws = ws) := by
  refine ⟨?_, ?_, ?_⟩
  · rcases env with ⟨ft, dl, st2⟩
    cases ft <;> cases dl <;> cases st2 <;> simp [cliTree]
  · rcases env with ⟨ft, dl, st2⟩
    cases ft <;> cases dl <;> cases st2 <;> simp [cliTree]
  · intro eenv spec d node ws _
    exact ⟨rfl, rfl⟩

/-- Concrete CLI environment for C9: module not found, download
succeeds, retry succeeds. -/
def envTree : TreeEnv :=
  ⟨.moduleNotFound "No module named toml", .ok "/cache/toml", .ok "tree output"⟩

/-- Witness for C9: with the concrete CLI environment the outcome is
quiet-independent, and the explorer warnings of `envT` are suppressed
by quiet and passed through otherwise. -/
theorem c9_witness :
    (cliTree envTree "toml" true).1 = (cliTree envTree "toml" false).1 ∧
    emitWarnings true ["Warning: could not import bad"] = [] ∧
    emitWarnings false ["Warning: could not import bad"] =
      ["Warning: could not import bad"] :=
  ⟨(c9_quiet_nonblocking envTree "toml").1,
   ((c9_quiet_nonblocking envTree "toml").2.2 envT ["m"] 1
      (ModuleNode.node "m" apiEmpty [("sub", ModuleNode.node "sub" apiEmpty [])])
      ["Warning: could not import bad"] rfl).1,
   ((c9_quiet_nonblocking envTree "toml").2.2 envT ["m"] 1
      (ModuleNode.node "m" apiEmpty [("sub", ModuleNode.node "sub" apiEmpty [])])
      ["Warning: could not import bad"] rfl).2⟩

end PrettyMod
